import Mathlib

/-!
Shallow embedding of the core of the AI-Studio-Simulator repository:
the retry orchestrator (`retryWithBackoff`), the mock generation client
(`mockApiCall`), the history store (`saveGeneration`, `getHistory`,
`clearHistory`, `removeFromHistory`) and the image preparer
(`validateImageFile`, the dimension computation of `downscaleImage`),
together with theorems settling the specification claims about them.
-/

namespace AIStudio

/-- A JavaScript error value as observed by `retryWithBackoff`'s catch
block: whether it is a `DOMException`, its `name`, and its `message`.
The mock API rejects either with `new DOMException('Request aborted',
'AbortError')` or with a plain `ApiError` object `{ message: ... }`
(not a `DOMException`, no meaningful `name`). -/
structure JsError where
  isDOMException : Bool
  name : String
  message : String
deriving DecidableEq

/-- JavaScript `s.includes(pat)` (substring containment). -/
def strIncludes (pat s : String) : Bool :=
  decide (pat.toList <:+: s.toList)

/-- `error instanceof DOMException && error.name === 'AbortError'`
(src/utils/apiUtils, retryWithBackoff line 71). -/
def isAbortError (e : JsError) : Bool :=
  e.isDOMException && e.name == "AbortError"

/-- `lastError.message?.includes('Model overloaded')`
(src/utils/apiUtils, retryWithBackoff line 76). -/
def isRetryableError (e : JsError) : Bool :=
  strIncludes "Model overloaded" e.message

/-- Outcome of one awaited call of the attempt thunk `fn`: the promise
either resolves with a value or rejects with an error. -/
inductive AttemptResult (T : Type) where
  | ok (v : T)
  | err (e : JsError)
deriving DecidableEq

/-- How a whole `retryWithBackoff` run resolves: the returned value, a
thrown error, or the `throw lastError!` after the loop when the loop
body never ran (`maxRetries < 1`), which throws `undefined`. -/
inductive RunResult (T : Type) where
  | success (v : T)
  | thrown (e : JsError)
  | thrownUndefined
deriving DecidableEq

/-- Observable trace of a `retryWithBackoff` run: how many times the
attempt thunk was invoked, the backoff waits performed (in order, in
milliseconds as exact rationals), and how the run resolved. -/
structure RunTrace (T : Type) where
  calls : Nat
  waits : List ℚ
  result : RunResult T
deriving DecidableEq

/-- The `for (let attempt = 1; attempt <= maxRetries; attempt++)` loop
of `retryWithBackoff` (src/utils/apiUtils lines 64-89), starting at the
given attempt number. `fn n` is the outcome of the n-th invocation of
the attempt thunk (the thunk is zero-argument but stateful across
calls; indexing by call number makes the call sequence explicit).
`rand n` is the `Math.random()` draw used for the jitter after attempt
`n`. `fuel` counts the remaining loop iterations (`maxRetries - attempt
+ 1` at entry); when it reaches 0 the loop exits and the trailing
`throw lastError!` fires with `lastError` still `undefined` (reachable
only when no iteration ran). Each iteration: await the thunk; on
resolution return the value; on rejection rethrow immediately if the
error is an `AbortError` `DOMException`, rethrow if the error is not
retryable (`message` lacking `'Model overloaded'`) or this was the last
attempt, otherwise wait `baseDelay * 2 ^ (attempt - 1) + Math.random()
* maxJitter` and continue. -/
def retryGo {T : Type} (fn : Nat → AttemptResult T) (maxRetries : Nat)
    (baseDelay maxJitter : ℚ) (rand : Nat → ℚ) : Nat → Nat → RunTrace T
  | _, 0 => ⟨0, [], .thrownUndefined⟩
  | attempt, fuel + 1 =>
    match fn attempt with
    | .ok v => ⟨1, [], .success v⟩
    | .err e =>
      if isAbortError e then
        ⟨1, [], .thrown e⟩
      else if !isRetryableError e || attempt == maxRetries then
        ⟨1, [], .thrown e⟩
      else
        let d := baseDelay * 2 ^ (attempt - 1) + rand attempt * maxJitter
        let rest := retryGo fn maxRetries baseDelay maxJitter rand (attempt + 1) fuel
        ⟨rest.calls + 1, d :: rest.waits, rest.result⟩

/-- `retryWithBackoff(fn, maxRetries = 3, baseDelay = 500, maxJitter =
100)` (src/utils/apiUtils lines 56-90): run the retry loop from attempt
1. Note the function takes no cancellation token: the backoff wait
`await new Promise(resolve => setTimeout(resolve, delay + jitter))` is
not interruptible and consults no signal. -/
def retryWithBackoff {T : Type} (fn : Nat → AttemptResult T) (maxRetries : Nat)
    (baseDelay maxJitter : ℚ) (rand : Nat → ℚ) : RunTrace T :=
  retryGo fn maxRetries baseDelay maxJitter rand 1 maxRetries

/-- The response shape of the mock generation API (src/types). -/
structure ApiResponse where
  id : String
  imageUrl : String
  prompt : String
  style : String
  createdAt : String
deriving DecidableEq

/-- The rejection value of `mockApiCall`'s abort path:
`new DOMException('Request aborted', 'AbortError')` (src/utils/apiUtils
line 44). -/
def abortReject : JsError := ⟨true, "AbortError", "Request aborted"⟩

/-- The rejection value of `mockApiCall`'s overload path: the plain
`ApiError` object `{ message: 'Model overloaded. Please try again.' }`
(src/utils/apiUtils line 24); not a `DOMException`, no `name`. -/
def overloadReject : JsError := ⟨false, "", "Model overloaded. Please try again."⟩

/-- Outcome of one `mockApiCall(request, signal)` call (src/utils/apiUtils
lines 11-47), as seen by its caller. The call schedules a timer for the
simulated latency and registers `signal?.addEventListener('abort', ...)`.
`abortFiresDuringWait` is true exactly when the signal's `abort` event is
dispatched while this call's timer is pending: only then does the call
reject with `new DOMException('Request aborted', 'AbortError')`. A signal
that was already aborted BEFORE the call started never fires the newly
added listener (the DOM dispatches `abort` once, at `abort()` time), so
such a call proceeds as if uncancelled. Otherwise the timer fires and the
call rejects with the plain `ApiError` object
`{ message: 'Model overloaded. Please try again.' }` when the 20%
overload draw hits (`overloadDraw`), else resolves with a response. -/
def mockApiCall (abortFiresDuringWait overloadDraw : Bool) (resp : ApiResponse) :
    AttemptResult ApiResponse :=
  if abortFiresDuringWait then .err abortReject
  else if overloadDraw then .err overloadReject
  else .ok resp

/-- A persisted generation record (src/types). -/
structure Generation where
  id : String
  imageUrl : String
  prompt : String
  style : String
  createdAt : String
deriving DecidableEq

/-- `const MAX_HISTORY_ITEMS = 5` (src/utils/storageUtils line 4). -/
def MAX_HISTORY_ITEMS : Nat := 5

/-- State of the localStorage slot under `'modelia_history'`:
`absent` — `getItem` returns `null`; `unreadable` — `getItem` throws
(storage unavailable) or the stored string fails `JSON.parse`;
`stored l` — the slot holds the serialization of the list `l`. -/
inductive StorageState where
  | absent
  | unreadable
  | stored (l : List Generation)
deriving DecidableEq

/-- Body of `getHistory`'s try block (src/utils/storageUtils lines
19-21): `localStorage.getItem` then `JSON.parse`; an unreadable slot
makes the body throw. -/
def getHistoryTry : StorageState → Except JsError (List Generation)
  | .absent => .ok []
  | .unreadable => .error ⟨false, "SyntaxError", "Unexpected token"⟩
  | .stored l => .ok l

/-- `getHistory()` (src/utils/storageUtils lines 18-26): the catch
logs the failure and returns `[]`. -/
def getHistory (s : StorageState) : List Generation :=
  match getHistoryTry s with
  | .ok l => l
  | .error _ => []

/-- The new list computed inside `saveGeneration` (src/utils/storageUtils
lines 8-11): drop any entry with the same id, keep the first
`MAX_HISTORY_ITEMS - 1` of the rest, prepend the new generation. -/
def newHistoryFor (g : Generation) (existingHistory : List Generation) :
    List Generation :=
  g :: (existingHistory.filter (fun item => item.id != g.id)).take
    (MAX_HISTORY_ITEMS - 1)

/-- Body of `saveGeneration`'s try block (src/utils/storageUtils lines
7-12): read the history (itself never throwing), compute the new list,
then `localStorage.setItem`, which may throw (`writeFails`). -/
def saveGenerationTry (g : Generation) (s : StorageState) (writeFails : Bool) :
    Except JsError StorageState :=
  let existingHistory := getHistory s
  let newHistory := newHistoryFor g existingHistory
  if writeFails then .error ⟨false, "QuotaExceededError", "setItem failed"⟩
  else .ok (.stored newHistory)

/-- `saveGeneration(generation)` (src/utils/storageUtils lines 6-16):
the catch logs the failure; the slot is then left unchanged. -/
def saveGeneration (g : Generation) (s : StorageState) (writeFails : Bool) :
    StorageState :=
  match saveGenerationTry g s writeFails with
  | .ok s2 => s2
  | .error _ => s

/-- Body of `clearHistory`'s try block (src/utils/storageUtils line 30):
`localStorage.removeItem`, which may throw (`removeFails`). -/
def clearHistoryTry (_s : StorageState) (removeFails : Bool) :
    Except JsError StorageState :=
  if removeFails then .error ⟨false, "SecurityError", "removeItem failed"⟩
  else .ok .absent

/-- `clearHistory()` (src/utils/storageUtils lines 28-34). -/
def clearHistory (s : StorageState) (removeFails : Bool) : StorageState :=
  match clearHistoryTry s removeFails with
  | .ok s2 => s2
  | .error _ => s

/-- Body of `removeFromHistory`'s try block (src/utils/storageUtils
lines 37-40): read, filter out the id, `setItem` (may throw). -/
def removeFromHistoryTry (gid : String) (s : StorageState) (writeFails : Bool) :
    Except JsError StorageState :=
  let history := getHistory s
  let filteredHistory := history.filter (fun item => item.id != gid)
  if writeFails then .error ⟨false, "QuotaExceededError", "setItem failed"⟩
  else .ok (.stored filteredHistory)

/-- `removeFromHistory(id)` (src/utils/storageUtils lines 36-44). -/
def removeFromHistory (gid : String) (s : StorageState) (writeFails : Bool) :
    StorageState :=
  match removeFromHistoryTry gid s writeFails with
  | .ok s2 => s2
  | .error _ => s

/-- `const MAX_FILE_SIZE = 10 * 1024 * 1024` (src/utils/imageUtils line 1). -/
def MAX_FILE_SIZE : Nat := 10 * 1024 * 1024

/-- `const MAX_IMAGE_DIMENSION = 1920` (src/utils/imageUtils line 2). -/
def MAX_IMAGE_DIMENSION : Nat := 1920

/-- A candidate `File` as far as `validateImageFile` inspects it:
its declared MIME `type` and its `size` in bytes. -/
structure JsFile where
  type : String
  size : Nat
deriving DecidableEq

/-- `file.type.match(/^image\x7b-comment-free regex-\x7d/)` truthiness: the
anchored regex `image\/(png|jpeg|jpg)` with `^`/`$` matches exactly the
three strings below. -/
def imageTypeMatches (t : String) : Bool :=
  t == "image/png" || t == "image/jpeg" || t == "image/jpg"

/-- `validateImageFile(file)` (src/utils/imageUtils lines 4-14):
`some msg` models returning an error string, `none` models `null`
(acceptance). The size branch rejects only `file.size > MAX_FILE_SIZE`. -/
def validateImageFile (f : JsFile) : Option String :=
  if !imageTypeMatches f.type then some "Please upload a PNG or JPG file"
  else if f.size > MAX_FILE_SIZE then some "File size must be less than 10MB"
  else none

/-- JavaScript `Math.round` on a nonnegative value: round half toward
positive infinity, i.e. the floor of `x + 1/2`. -/
def jsRound (x : ℚ) : ℤ :=
  ⌊x + 1 / 2⌋

/-- The dimension computation of `downscaleImage`'s onload handler
(src/utils/imageUtils lines 27-47): if either edge exceeds `maxDim`,
set the longer edge to `maxDim` and round the other from the aspect
ratio `width / height` (ties `width === height` take the else branch);
otherwise keep the dimensions unchanged. Returns `(newWidth, newHeight)`. -/
def computeScaledDims (width height maxDim : Nat) : ℤ × ℤ :=
  if width > maxDim ∨ height > maxDim then
    let aspectRatio : ℚ := (width : ℚ) / (height : ℚ)
    if width > height then ((maxDim : ℤ), jsRound ((maxDim : ℚ) / aspectRatio))
    else (jsRound ((maxDim : ℚ) * aspectRatio), (maxDim : ℤ))
  else ((width : ℤ), (height : ℤ))

/-! ## Helper lemmas -/

theorem retryGo_abort {T : Type} (fn : Nat → AttemptResult T) (maxRetries : Nat)
    (baseDelay maxJitter : ℚ) (rand : Nat → ℚ) (attempt fuel : Nat) (e : JsError)
    (hfn : fn attempt = .err e) (habort : isAbortError e = true) :
    retryGo fn maxRetries baseDelay maxJitter rand attempt (fuel + 1) =
      ⟨1, [], .thrown e⟩ := by
  simp [retryGo, hfn, habort]

theorem retryWithBackoff_abort_first {T : Type} (fn : Nat → AttemptResult T)
    (maxRetries : Nat) (baseDelay maxJitter : ℚ) (rand : Nat → ℚ) (e : JsError)
    (hmR : 1 ≤ maxRetries) (hfn : fn 1 = .err e) (habort : isAbortError e = true) :
    retryWithBackoff fn maxRetries baseDelay maxJitter rand = ⟨1, [], .thrown e⟩ := by
  obtain ⟨fuel, rfl⟩ := Nat.exists_eq_add_of_le hmR
  rw [retryWithBackoff, Nat.add_comm 1 fuel]
  exact retryGo_abort fn (fuel + 1) baseDelay maxJitter rand 1 fuel e hfn habort

/-! ## Claim theorems -/

/-- C2: with `maxAttempts = 3`, `retryWithBackoff` invokes the thunk once
per attempt until an attempt succeeds or fails non-retryably, capped at 3:
(a) a thunk rejecting with retryable (overload) errors on all 3 calls is
invoked exactly 3 times, two backoff waits happen, and the last error is
surfaced; (b) a thunk rejecting retryably on the first 2 calls and then
succeeding is invoked exactly 3 times and its success value is returned;
(c) a thunk rejecting with a terminal (non-abort, non-overload) error on
the first call is invoked exactly once and that error is surfaced with no
backoff wait. -/
theorem retry_attempt_counts :
    (∀ (T : Type) (fn : Nat → AttemptResult T) (e1 e2 e3 : JsError) (rand : Nat → ℚ),
      fn 1 = .err e1 → fn 2 = .err e2 → fn 3 = .err e3 →
      (∀ e ∈ [e1, e2, e3], isAbortError e = false ∧ isRetryableError e = true) →
      retryWithBackoff fn 3 500 100 rand =
        ⟨3, [500 + rand 1 * 100, 1000 + rand 2 * 100], .thrown e3⟩) ∧
    (∀ (T : Type) (fn : Nat → AttemptResult T) (e1 e2 : JsError) (v : T) (rand : Nat → ℚ),
      fn 1 = .err e1 → fn 2 = .err e2 → fn 3 = .ok v →
      (∀ e ∈ [e1, e2], isAbortError e = false ∧ isRetryableError e = true) →
      retryWithBackoff fn 3 500 100 rand =
        ⟨3, [500 + rand 1 * 100, 1000 + rand 2 * 100], .success v⟩) ∧
    (∀ (T : Type) (fn : Nat → AttemptResult T) (e : JsError) (rand : Nat → ℚ),
      fn 1 = .err e → isAbortError e = false → isRetryableError e = false →
      retryWithBackoff fn 3 500 100 rand = ⟨1, [], .thrown e⟩) := by
  refine ⟨?_, ?_, ?_⟩
  · intro T fn e1 e2 e3 rand h1 h2 h3 hprops
    obtain ⟨hp1, hp2, hp3⟩ : (isAbortError e1 = false ∧ isRetryableError e1 = true) ∧
        (isAbortError e2 = false ∧ isRetryableError e2 = true) ∧
        (isAbortError e3 = false ∧ isRetryableError e3 = true) := by
      exact ⟨hprops e1 (by simp), hprops e2 (by simp), hprops e3 (by simp)⟩
    simp [retryWithBackoff, retryGo, h1, h2, h3, hp1.1, hp1.2, hp2.1, hp2.2,
      hp3.1, hp3.2]
    norm_num
  · intro T fn e1 e2 v rand h1 h2 h3 hprops
    obtain ⟨hp1, hp2⟩ : (isAbortError e1 = false ∧ isRetryableError e1 = true) ∧
        (isAbortError e2 = false ∧ isRetryableError e2 = true) := by
      exact ⟨hprops e1 (by simp), hprops e2 (by simp)⟩
    simp [retryWithBackoff, retryGo, h1, h2, h3, hp1.1, hp1.2, hp2.1, hp2.2]
    norm_num
  · intro T fn e rand h1 habort hretry
    simp [retryWithBackoff, retryGo, h1, habort, hretry]

/-- Witness for C2 at concrete thunks: always-overload, twice-overload
then success, and a terminal network error. -/
theorem retry_attempt_counts_witness :
    retryWithBackoff (T := Nat) (fun _ => .err overloadReject) 3 500 100 (fun _ => 0) =
      ⟨3, [500, 1000], .thrown overloadReject⟩ ∧
    retryWithBackoff (T := Nat) (fun n => if n ≤ 2 then .err overloadReject else .ok 42)
        3 500 100 (fun _ => 0) = ⟨3, [500, 1000], .success 42⟩ ∧
    retryWithBackoff (T := Nat) (fun _ => .err ⟨false, "", "Network error"⟩) 3 500 100
        (fun _ => 0) = ⟨1, [], .thrown ⟨false, "", "Network error"⟩⟩ := by
  refine ⟨?_, ?_, ?_⟩
  · have h := retry_attempt_counts.1 Nat (fun _ => .err overloadReject)
      overloadReject overloadReject overloadReject (fun _ => 0) rfl rfl rfl (by decide)
    simpa using h
  · have h := retry_attempt_counts.2.1 Nat
      (fun n => if n ≤ 2 then .err overloadReject else .ok 42)
      overloadReject overloadReject 42 (fun _ => 0) rfl rfl rfl (by decide)
    simpa using h
  · exact retry_attempt_counts.2.2 Nat (fun _ => .err ⟨false, "", "Network error"⟩)
      ⟨false, "", "Network error"⟩ (fun _ => 0) rfl (by decide) (by decide)

/-- C3: whenever a call of the attempt thunk rejects with a
`CancelledError` (a `DOMException` named `AbortError`), `retryWithBackoff`
rethrows it at once: at any reached attempt the run ends there with no
further thunk invocation and no backoff wait, and in particular an abort
on the first call ends the whole run as `⟨1, [], thrown e⟩`. -/
theorem retry_cancelled_propagates :
    (∀ (T : Type) (fn : Nat → AttemptResult T) (maxRetries : Nat)
        (baseDelay maxJitter : ℚ) (rand : Nat → ℚ) (attempt fuel : Nat) (e : JsError),
      fn attempt = .err e → isAbortError e = true →
      retryGo fn maxRetries baseDelay maxJitter rand attempt (fuel + 1) =
        ⟨1, [], .thrown e⟩) ∧
    (∀ (T : Type) (fn : Nat → AttemptResult T) (maxRetries : Nat)
        (baseDelay maxJitter : ℚ) (rand : Nat → ℚ) (e : JsError),
      1 ≤ maxRetries → fn 1 = .err e → isAbortError e = true →
      retryWithBackoff fn maxRetries baseDelay maxJitter rand =
        ⟨1, [], .thrown e⟩) := by
  constructor
  · intro T fn maxRetries baseDelay maxJitter rand attempt fuel e hfn habort
    exact retryGo_abort fn maxRetries baseDelay maxJitter rand attempt fuel e hfn habort
  · intro T fn maxRetries baseDelay maxJitter rand e hmR hfn habort
    exact retryWithBackoff_abort_first fn maxRetries baseDelay maxJitter rand e
      hmR hfn habort

/-- Witness for C3: a thunk whose first call rejects with the mock
client's abort rejection. -/
theorem retry_cancelled_propagates_witness :
    retryWithBackoff (T := Nat) (fun _ => .err abortReject) 3 500 100 (fun _ => 0) =
      ⟨1, [], .thrown abortReject⟩ := by
  exact retry_cancelled_propagates.2 Nat (fun _ => .err abortReject) 3 500 100
    (fun _ => 0) abortReject (by decide) rfl (by decide)

/-- C10: the abort check precedes the retryability classification: an
error that is a `DOMException` named `AbortError` is rethrown immediately
with one thunk invocation and no backoff wait even when its `message`
contains the overload sentinel `'Model overloaded'` (which makes
`isRetryableError` true). -/
theorem retry_abort_beats_retryable :
    ∀ (T : Type) (fn : Nat → AttemptResult T) (maxRetries : Nat)
      (baseDelay maxJitter : ℚ) (rand : Nat → ℚ) (e : JsError),
      1 ≤ maxRetries → fn 1 = .err e →
      e.isDOMException = true → e.name = "AbortError" →
      strIncludes "Model overloaded" e.message = true →
      isRetryableError e = true ∧
      retryWithBackoff fn maxRetries baseDelay maxJitter rand =
        ⟨1, [], .thrown e⟩ := by
  intro T fn maxRetries baseDelay maxJitter rand e hmR hfn hdom hname hmsg
  have habort : isAbortError e = true := by
    simp [isAbortError, hdom, hname]
  exact ⟨hmsg, retryWithBackoff_abort_first fn maxRetries baseDelay maxJitter
    rand e hmR hfn habort⟩

/-- Witness for C10: an `AbortError` `DOMException` whose message carries
the overload sentinel. -/
theorem retry_abort_beats_retryable_witness :
    isRetryableError ⟨true, "AbortError", "Model overloaded. Please try again."⟩ = true ∧
    retryWithBackoff (T := Nat)
        (fun _ => .err ⟨true, "AbortError", "Model overloaded. Please try again."⟩)
        3 500 100 (fun _ => 0) =
      ⟨1, [], .thrown ⟨true, "AbortError", "Model overloaded. Please try again."⟩⟩ := by
  exact retry_abort_beats_retryable Nat
    (fun _ => .err ⟨true, "AbortError", "Model overloaded. Please try again."⟩)
    3 500 100 (fun _ => 0) ⟨true, "AbortError", "Model overloaded. Please try again."⟩
    (by decide) rfl rfl rfl (by decide)

/-- In a list produced by `newHistoryFor g`, the entries with `g`'s id
are exactly `[g]`: the tail was filtered to ids different from `g.id`
and `take` preserves that. -/
theorem newHistoryFor_filter_id (g : Generation) (l : List Generation) :
    (newHistoryFor g l).filter (fun x => x.id == g.id) = [g] := by
  unfold newHistoryFor
  rw [List.filter_cons]
  simp only [beq_self_eq_true, if_pos]
  have htail : ((l.filter (fun item => item.id != g.id)).take
      (MAX_HISTORY_ITEMS - 1)).filter (fun x => x.id == g.id) = [] := by
    rw [List.filter_eq_nil_iff]
    intro x hx
    have hx2 := List.take_subset _ _ hx
    have hx3 := (List.mem_filter.mp hx2).2
    simp only [bne_iff_ne, ne_eq] at hx3
    simp [hx3]
  rw [htail]

/-- C9 counterexample: a PNG file of exactly 10 MiB (10 × 1024 × 1024
bytes) is accepted (`null` returned) although its size is not *under*
the 10 MiB ceiling, contradicting the claim as stated. -/
theorem validate_boundary_counterexample :
    validateImageFile ⟨"image/png", MAX_FILE_SIZE⟩ = none ∧
    imageTypeMatches "image/png" = true ∧
    ¬(MAX_FILE_SIZE < MAX_FILE_SIZE) := by
  refine ⟨?_, rfl, by omega⟩
  rfl

/-- C9 (amended): `validateImageFile` accepts (returns `null`) exactly
when the declared type is in the fixed allow-list
(`image/png`, `image/jpeg`, `image/jpg`) and the byte size does not
exceed the 10 MiB ceiling (sizes equal to the ceiling are accepted;
only strictly larger ones are rejected). -/
theorem validate_accepts_iff :
    ∀ f : JsFile, validateImageFile f = none ↔
      (imageTypeMatches f.type = true ∧ f.size ≤ MAX_FILE_SIZE) := by
  intro f
  unfold validateImageFile
  by_cases ht : imageTypeMatches f.type = true
  · by_cases hs : MAX_FILE_SIZE < f.size
    · simp [ht, hs]
    · simp [ht, hs]
      omega
  · have ht2 : imageTypeMatches f.type = false := by
      cases hb : imageTypeMatches f.type
      · rfl
      · exact absurd hb ht
    simp [ht2]

/-- C7: storage-layer failures never reach the caller: `getHistory`
returns `[]` for an absent slot and for unreadable/corrupt content (whose
try-body does raise a parse error, absorbed by the catch), and
`saveGeneration`, `clearHistory` and `removeFromHistory` absorb a
throwing `setItem`/`removeItem` (their try-bodies raise, the catch
leaves the slot unchanged and returns normally). -/
theorem storage_failures_absorbed :
    getHistory .absent = [] ∧
    getHistory .unreadable = [] ∧
    (∃ e, getHistoryTry .unreadable = .error e) ∧
    (∀ (g : Generation) (s : StorageState),
      (∃ e, saveGenerationTry g s true = .error e) ∧ saveGeneration g s true = s) ∧
    (∀ s : StorageState,
      (∃ e, clearHistoryTry s true = .error e) ∧ clearHistory s true = s) ∧
    (∀ (gid : String) (s : StorageState),
      (∃ e, removeFromHistoryTry gid s true = .error e) ∧
        removeFromHistory gid s true = s) := by
  refine ⟨rfl, rfl, ⟨_, rfl⟩, ?_, ?_, ?_⟩
  · intro g s
    exact ⟨⟨_, rfl⟩, rfl⟩
  · intro s
    exact ⟨⟨_, rfl⟩, rfl⟩
  · intro gid s
    exact ⟨⟨_, rfl⟩, rfl⟩

/-- C6: saving twice with the same identifier (the second call with a
distinct payload) leaves, in the stored history, exactly one entry with
that identifier — the second payload — and it is at the front. -/
theorem record_same_id_replaces :
    ∀ (s : StorageState) (g g2 : Generation), g2.id = g.id → g2 ≠ g →
      (getHistory (saveGeneration g2 (saveGeneration g s false) false)).head? =
        some g2 ∧
      (getHistory (saveGeneration g2 (saveGeneration g s false) false)).filter
        (fun x => x.id == g.id) = [g2] := by
  intro s g g2 hid _
  have hsave : ∀ (a : Generation) (t : StorageState),
      getHistory (saveGeneration a t false) = newHistoryFor a (getHistory t) :=
    fun _ _ => rfl
  rw [hsave, hsave]
  refine ⟨rfl, ?_⟩
  rw [← hid]
  exact newHistoryFor_filter_id g2 (newHistoryFor g (getHistory s))

/-- Witness for C6: two saves under id `"a"` onto empty storage. -/
theorem record_same_id_replaces_witness :
    ((⟨"a", "u2", "p2", "s2", "t2"⟩ : Generation).id =
      (⟨"a", "u1", "p1", "s1", "t1"⟩ : Generation).id) ∧
    ((⟨"a", "u2", "p2", "s2", "t2"⟩ : Generation) ≠
      (⟨"a", "u1", "p1", "s1", "t1"⟩ : Generation)) ∧
    (getHistory (saveGeneration ⟨"a", "u2", "p2", "s2", "t2"⟩
        (saveGeneration ⟨"a", "u1", "p1", "s1", "t1"⟩ .absent false) false)).head? =
      some ⟨"a", "u2", "p2", "s2", "t2"⟩ ∧
    (getHistory (saveGeneration ⟨"a", "u2", "p2", "s2", "t2"⟩
        (saveGeneration ⟨"a", "u1", "p1", "s1", "t1"⟩ .absent false) false)).filter
      (fun x => x.id == (⟨"a", "u1", "p1", "s1", "t1"⟩ : Generation).id) =
        [⟨"a", "u2", "p2", "s2", "t2"⟩] := by
  have h := record_same_id_replaces .absent ⟨"a", "u1", "p1", "s1", "t1"⟩
    ⟨"a", "u2", "p2", "s2", "t2"⟩ rfl (by decide)
  exact ⟨rfl, by decide, h.1, h.2⟩

/-! ### Shape lemmas for `newHistoryFor` under known prefixes -/

theorem newHistoryFor_cons1 (g a : Generation) (t : List Generation)
    (ha : (a.id != g.id) = true) :
    newHistoryFor g (a :: t) =
      g :: a :: (t.filter (fun item => item.id != g.id)).take 3 := by
  unfold newHistoryFor MAX_HISTORY_ITEMS
  simp only [List.filter_cons, ha, if_true]
  rfl

theorem newHistoryFor_cons2 (g a b : Generation) (t : List Generation)
    (ha : (a.id != g.id) = true) (hb : (b.id != g.id) = true) :
    newHistoryFor g (a :: b :: t) =
      g :: a :: b :: (t.filter (fun item => item.id != g.id)).take 2 := by
  unfold newHistoryFor MAX_HISTORY_ITEMS
  simp only [List.filter_cons, ha, hb, if_true]
  rfl

theorem newHistoryFor_cons3 (g a b c : Generation) (t : List Generation)
    (ha : (a.id != g.id) = true) (hb : (b.id != g.id) = true)
    (hc : (c.id != g.id) = true) :
    newHistoryFor g (a :: b :: c :: t) =
      g :: a :: b :: c :: (t.filter (fun item => item.id != g.id)).take 1 := by
  unfold newHistoryFor MAX_HISTORY_ITEMS
  simp only [List.filter_cons, ha, hb, hc, if_true]
  rfl

theorem newHistoryFor_cons4 (g a b c d : Generation) (t : List Generation)
    (ha : (a.id != g.id) = true) (hb : (b.id != g.id) = true)
    (hc : (c.id != g.id) = true) (hd : (d.id != g.id) = true) :
    newHistoryFor g (a :: b :: c :: d :: t) = [g, a, b, c, d] := by
  unfold newHistoryFor MAX_HISTORY_ITEMS
  simp only [List.filter_cons, ha, hb, hc, hd, if_true]
  rfl

/-- C5: the persisted history never exceeds 5 entries — every successful
write stores `newHistoryFor`, whose length is at most 5 whatever was
stored before — and recording 6 generations with pairwise distinct
identifiers onto any prior stored state leaves exactly the last 5, most
recently recorded first. -/
theorem history_bounded_and_six_records :
    (∀ (g : Generation) (s : StorageState),
      (getHistory (saveGeneration g s false)).length ≤ MAX_HISTORY_ITEMS) ∧
    (∀ (s : StorageState) (g1 g2 g3 g4 g5 g6 : Generation),
      List.Pairwise (fun a b => a.id ≠ b.id) [g1, g2, g3, g4, g5, g6] →
      getHistory (saveGeneration g6 (saveGeneration g5 (saveGeneration g4
        (saveGeneration g3 (saveGeneration g2 (saveGeneration g1 s false)
          false) false) false) false) false) = [g6, g5, g4, g3, g2]) := by
  have hsave : ∀ (a : Generation) (t : StorageState),
      getHistory (saveGeneration a t false) = newHistoryFor a (getHistory t) :=
    fun _ _ => rfl
  constructor
  · intro g s
    rw [hsave]
    unfold newHistoryFor MAX_HISTORY_ITEMS
    simp only [List.length_cons, List.length_take]
    omega
  · intro s g1 g2 g3 g4 g5 g6 hpw
    simp only [List.pairwise_cons, List.mem_cons, List.mem_singleton,
      List.not_mem_nil, forall_eq_or_imp, forall_eq,
      and_true, IsEmpty.forall_iff, implies_true] at hpw
    obtain ⟨⟨h12, h13, h14, h15, h16⟩, ⟨h23, h24, h25, h26⟩,
      ⟨h34, h35, h36⟩, ⟨h45, h46⟩, h56, -⟩ := hpw
    have ne : ∀ {x y : String}, x ≠ y → (x != y) = true := fun h => bne_iff_ne.mpr h
    rw [hsave, hsave, hsave, hsave, hsave, hsave]
    rw [show newHistoryFor g1 (getHistory s) =
      g1 :: ((getHistory s).filter (fun item => item.id != g1.id)).take 4 from rfl]
    rw [newHistoryFor_cons1 g2 g1 _ (ne h12)]
    rw [newHistoryFor_cons2 g3 g2 g1 _ (ne h23) (ne h13)]
    rw [newHistoryFor_cons3 g4 g3 g2 g1 _ (ne h34) (ne h24) (ne h14)]
    rw [newHistoryFor_cons4 g5 g4 g3 g2 g1 _ (ne h45) (ne h35) (ne h25) (ne h15)]
    rw [show ([g5, g4, g3, g2, g1] : List Generation) =
      g5 :: g4 :: g3 :: g2 :: [g1] from rfl]
    rw [newHistoryFor_cons4 g6 g5 g4 g3 g2 _ (ne h56) (ne h46) (ne h36) (ne h26)]

/-- Witness for C5: six saves with ids `"1"`–`"6"` onto a stored state
that already holds five other entries. -/
theorem history_bounded_and_six_records_witness :
    (List.Pairwise (fun a b => a.id ≠ b.id)
      ([⟨"1", "", "", "", ""⟩, ⟨"2", "", "", "", ""⟩, ⟨"3", "", "", "", ""⟩,
        ⟨"4", "", "", "", ""⟩, ⟨"5", "", "", "", ""⟩, ⟨"6", "", "", "", ""⟩] :
        List Generation)) ∧
    getHistory (saveGeneration ⟨"6", "", "", "", ""⟩
      (saveGeneration ⟨"5", "", "", "", ""⟩ (saveGeneration ⟨"4", "", "", "", ""⟩
        (saveGeneration ⟨"3", "", "", "", ""⟩ (saveGeneration ⟨"2", "", "", "", ""⟩
          (saveGeneration ⟨"1", "", "", "", ""⟩
            (.stored [⟨"7", "", "", "", ""⟩, ⟨"8", "", "", "", ""⟩,
              ⟨"9", "", "", "", ""⟩, ⟨"10", "", "", "", ""⟩,
              ⟨"11", "", "", "", ""⟩]) false) false) false) false) false) false) =
      [⟨"6", "", "", "", ""⟩, ⟨"5", "", "", "", ""⟩, ⟨"4", "", "", "", ""⟩,
        ⟨"3", "", "", "", ""⟩, ⟨"2", "", "", "", ""⟩] := by
  refine ⟨by decide, ?_⟩
  exact history_bounded_and_six_records.2
    (.stored [⟨"7", "", "", "", ""⟩, ⟨"8", "", "", "", ""⟩, ⟨"9", "", "", "", ""⟩,
      ⟨"10", "", "", "", ""⟩, ⟨"11", "", "", "", ""⟩])
    ⟨"1", "", "", "", ""⟩ ⟨"2", "", "", "", ""⟩ ⟨"3", "", "", "", ""⟩
    ⟨"4", "", "", "", ""⟩ ⟨"5", "", "", "", ""⟩ ⟨"6", "", "", "", ""⟩ (by decide)

/-- The waits performed by the retry loop from attempt `attempt` with
`fuel` remaining iterations (where `attempt + fuel = maxRetries + 1`,
as maintained by the loop) form an initial segment of the backoff
schedule `baseDelay * 2 ^ (attempt + i - 1) + rand (attempt + i) *
maxJitter`, of length at most `fuel - 1` (the final attempt never
waits). -/
theorem retryGo_waits_schedule {T : Type} (fn : Nat → AttemptResult T)
    (maxRetries : Nat) (baseDelay maxJitter : ℚ) (rand : Nat → ℚ) :
    ∀ (fuel attempt : Nat), 1 ≤ attempt → attempt + fuel = maxRetries + 1 →
      ∃ k, k ≤ fuel - 1 ∧
        (retryGo fn maxRetries baseDelay maxJitter rand attempt fuel).waits =
          (List.range k).map (fun i =>
            baseDelay * 2 ^ (attempt + i - 1) + rand (attempt + i) * maxJitter) := by
  intro fuel
  induction fuel with
  | zero =>
    intro attempt _ _
    exact ⟨0, Nat.le_refl 0, by simp [retryGo]⟩
  | succ f ih =>
    intro attempt h1 hsync
    cases hfn : fn attempt with
    | ok v => exact ⟨0, Nat.zero_le _, by simp [retryGo, hfn]⟩
    | err e =>
      by_cases hab : isAbortError e = true
      · exact ⟨0, Nat.zero_le _, by simp [retryGo, hfn, hab]⟩
      · have hab2 : isAbortError e = false := by
          cases hb : isAbortError e
          · rfl
          · exact absurd hb hab
        by_cases hc : (!isRetryableError e || (attempt == maxRetries)) = true
        · exact ⟨0, Nat.zero_le _, by simp [retryGo, hfn, hab2, hc]⟩
        · have hc2 : (!isRetryableError e || (attempt == maxRetries)) = false := by
            cases hb : (!isRetryableError e || (attempt == maxRetries))
            · rfl
            · exact absurd hb hc
          have hne : attempt ≠ maxRetries := by
            intro hEq
            simp [hEq] at hc2
          have hf1 : 1 ≤ f := by omega
          obtain ⟨k, hk, hw⟩ := ih (attempt + 1) (by omega) (by omega)
          refine ⟨k + 1, by omega, ?_⟩
          have hstep : (retryGo fn maxRetries baseDelay maxJitter rand attempt
              (f + 1)).waits =
              (baseDelay * 2 ^ (attempt - 1) + rand attempt * maxJitter) ::
              (retryGo fn maxRetries baseDelay maxJitter rand (attempt + 1) f).waits := by
            simp [retryGo, hfn, hab2, hc2]
          rw [hstep, hw, List.range_succ_eq_map, List.map_cons, List.map_map]
          have hidx0 : attempt + 0 = attempt := rfl
          have hcomp : ∀ i : Nat,
              baseDelay * 2 ^ (attempt + (i + 1) - 1) + rand (attempt + (i + 1)) * maxJitter =
              baseDelay * 2 ^ (attempt + 1 + i - 1) + rand (attempt + 1 + i) * maxJitter := by
            intro i
            have e1 : attempt + (i + 1) = attempt + 1 + i := by omega
            rw [e1]
          simp only [hidx0]
          congr 1
          refine List.map_congr_left fun i _ => ?_
          simp only [Function.comp_apply, Nat.succ_eq_add_one]
          exact (hcomp i).symm

/-- C4: for a run with the defaults (`maxAttempts = 3`, `baseDelay =
500`, `jitterBound = 100`) and `Math.random()` draws in `[0, 1)`, the
backoff waits are an initial segment (of length at most 2 — no wait
happens after the final attempt) of the schedule whose i-th wait, the
one before attempt i+2, is `500 * 2 ^ i` plus the jitter draw
`rand (i+1) * 100`, which lies in `[0, 100)`: the nominal waits are
500 ms then 1000 ms, each plus its own jitter. -/
theorem backoff_delay_schedule :
    ∀ (T : Type) (fn : Nat → AttemptResult T) (rand : Nat → ℚ),
      (∀ n, 0 ≤ rand n ∧ rand n < 1) →
      ∃ k, k ≤ 2 ∧
        (retryWithBackoff fn 3 500 100 rand).waits =
          (List.range k).map (fun i => 500 * 2 ^ i + rand (i + 1) * 100) ∧
        ∀ i : Nat,
          500 * (2 : ℚ) ^ i ≤ 500 * 2 ^ i + rand (i + 1) * 100 ∧
          500 * (2 : ℚ) ^ i + rand (i + 1) * 100 < 500 * 2 ^ i + 100 := by
  intro T fn rand hrand
  obtain ⟨k, hk, hw⟩ := retryGo_waits_schedule fn 3 500 100 rand 3 1
    (by omega) (by omega)
  have heq : ∀ i : Nat,
      (500 : ℚ) * 2 ^ (1 + i - 1) + rand (1 + i) * 100 =
      500 * 2 ^ i + rand (i + 1) * 100 := by
    intro i
    have e1 : 1 + i - 1 = i := by omega
    have e2 : 1 + i = i + 1 := by omega
    rw [e1, e2]
  refine ⟨k, by omega, ?_, ?_⟩
  · rw [retryWithBackoff] at *
    rw [hw]
    exact List.map_congr_left fun i _ => heq i
  · intro i
    have h := hrand (i + 1)
    constructor
    · have : 0 ≤ rand (i + 1) * 100 := mul_nonneg h.1 (by norm_num)
      linarith
    · have : rand (i + 1) * 100 < 1 * 100 :=
        mul_lt_mul_of_pos_right h.2 (by norm_num)
      linarith

/-- Witness for C4: a thunk that always rejects retryably and constant
`Math.random()` draws of 1/2 (which lie in `[0, 1)`). -/
theorem backoff_delay_schedule_witness :
    ((0 : ℚ) ≤ 1 / 2 ∧ (1 / 2 : ℚ) < 1) ∧
    (∃ k, k ≤ 2 ∧
      (retryWithBackoff (T := Nat) (fun _ => .err overloadReject) 3 500 100
          (fun _ => 1 / 2)).waits =
        (List.range k).map (fun i => 500 * 2 ^ i + (fun _ : Nat => (1 / 2 : ℚ)) (i + 1) * 100) ∧
      ∀ i : Nat,
        500 * (2 : ℚ) ^ i ≤ 500 * 2 ^ i + (fun _ : Nat => (1 / 2 : ℚ)) (i + 1) * 100 ∧
        500 * (2 : ℚ) ^ i + (fun _ : Nat => (1 / 2 : ℚ)) (i + 1) * 100 < 500 * 2 ^ i + 100) := by
  constructor
  · norm_num
  · exact backoff_delay_schedule Nat (fun _ => .err overloadReject)
      (fun _ => 1 / 2) (fun n => by norm_num)

/-! ### Rounding bounds for the image preparer -/

theorem jsRound_bounds (x : ℚ) :
    x - 1 / 2 < (jsRound x : ℚ) ∧ (jsRound x : ℚ) ≤ x + 1 / 2 := by
  unfold jsRound
  constructor
  · have h := Int.sub_one_lt_floor (x + 1 / 2)
    linarith
  · exact Int.floor_le (x + 1 / 2)

theorem jsRound_nonneg (x : ℚ) (hx : 0 ≤ x) : 0 ≤ jsRound x := by
  unfold jsRound
  exact Int.floor_nonneg.mpr (by linarith)

theorem jsRound_le_of_lt (x : ℚ) (B : ℤ) (hx : x < B) : jsRound x ≤ B := by
  unfold jsRound
  have h : ⌊x + 1 / 2⌋ < B + 1 := by
    rw [Int.floor_lt]
    push_cast
    linarith
  omega

/-- C8: for positive input dimensions, if the longer edge is at most
1920 the computed dimensions equal the input exactly; if the longer
edge exceeds 1920, the output's longer edge is exactly 1920 and the
shorter edge is within 1 pixel of the exact aspect-preserving value
`1920 * (shorter input edge) / (longer input edge)`. -/
theorem downscale_dimensions :
    ∀ (w h : Nat), 0 < w → 0 < h →
      (max w h ≤ MAX_IMAGE_DIMENSION →
        computeScaledDims w h MAX_IMAGE_DIMENSION = ((w : ℤ), (h : ℤ))) ∧
      (MAX_IMAGE_DIMENSION < max w h →
        max (computeScaledDims w h MAX_IMAGE_DIMENSION).1
            (computeScaledDims w h MAX_IMAGE_DIMENSION).2 = 1920 ∧
        |(min (computeScaledDims w h MAX_IMAGE_DIMENSION).1
            (computeScaledDims w h MAX_IMAGE_DIMENSION).2 : ℚ) -
          1920 * (min w h : ℚ) / (max w h : ℚ)| ≤ 1) := by
  intro w h hw hh
  have hwq : (0 : ℚ) < (w : ℚ) := by exact_mod_cast hw
  have hhq : (0 : ℚ) < (h : ℚ) := by exact_mod_cast hh
  constructor
  · intro hle
    have hcond : ¬(w > MAX_IMAGE_DIMENSION ∨ h > MAX_IMAGE_DIMENSION) := by
      obtain ⟨hwle, hhle⟩ := max_le_iff.mp hle
      omega
    unfold computeScaledDims
    rw [if_neg hcond]
  · intro hgt
    have hcond : w > MAX_IMAGE_DIMENSION ∨ h > MAX_IMAGE_DIMENSION := by
      rcases lt_max_iff.mp hgt with hc | hc
      · exact Or.inl hc
      · exact Or.inr hc
    rcases Nat.lt_trichotomy h w with hlt | heq | hlt2
    · -- w > h: then-branch, output (1920, round(1920 / (w / h)))
      have hbr : w > h := hlt
      have hp : computeScaledDims w h MAX_IMAGE_DIMENSION =
          ((1920 : ℤ), jsRound ((1920 : ℚ) / ((w : ℚ) / (h : ℚ)))) := by
        unfold computeScaledDims
        rw [if_pos hcond, if_pos hbr]
        norm_num [MAX_IMAGE_DIMENSION]
      have hx : (1920 : ℚ) / ((w : ℚ) / (h : ℚ)) = 1920 * (h : ℚ) / (w : ℚ) :=
        div_div_eq_mul_div 1920 _ _
      have hxlt : (1920 : ℚ) * (h : ℚ) / (w : ℚ) < 1920 := by
        rw [div_lt_iff₀ hwq]
        have hc : (h : ℚ) < (w : ℚ) := by exact_mod_cast hlt
        nlinarith
      have hrle : jsRound ((1920 : ℚ) * (h : ℚ) / (w : ℚ)) ≤ 1920 :=
        jsRound_le_of_lt _ 1920 (by exact_mod_cast hxlt)
      rw [hp]
      constructor
      · show max (1920 : ℤ) (jsRound ((1920 : ℚ) / ((w : ℚ) / (h : ℚ)))) = 1920
        rw [hx]
        exact max_eq_left hrle
      · show |min (((1920 : ℤ) : ℚ))
            ((jsRound ((1920 : ℚ) / ((w : ℚ) / (h : ℚ))) : ℤ) : ℚ) -
          1920 * (min (w : ℚ) (h : ℚ)) / (max (w : ℚ) (h : ℚ))| ≤ 1
        have hminq : min (w : ℚ) (h : ℚ) = (h : ℚ) :=
          min_eq_right (by exact_mod_cast Nat.le_of_lt hlt)
        have hmaxq : max (w : ℚ) (h : ℚ) = (w : ℚ) :=
          max_eq_left (by exact_mod_cast Nat.le_of_lt hlt)
        have hminp : min (((1920 : ℤ) : ℚ))
            ((jsRound ((1920 : ℚ) / ((w : ℚ) / (h : ℚ))) : ℤ) : ℚ) =
            ((jsRound ((1920 : ℚ) / ((w : ℚ) / (h : ℚ))) : ℤ) : ℚ) := by
          apply min_eq_right
          rw [hx]
          exact_mod_cast hrle
        rw [hminp, hminq, hmaxq, hx]
        have hb := jsRound_bounds ((1920 : ℚ) * (h : ℚ) / (w : ℚ))
        rw [abs_le]
        constructor
        · linarith [hb.1]
        · linarith [hb.2]
    · -- w = h: else-branch with aspect ratio 1, output (1920, 1920)
      have hbr : ¬(w > h) := by omega
      have hp : computeScaledDims w h MAX_IMAGE_DIMENSION =
          (jsRound ((1920 : ℚ) * ((w : ℚ) / (h : ℚ))), (1920 : ℤ)) := by
        unfold computeScaledDims
        rw [if_pos hcond, if_neg hbr]
        norm_num [MAX_IMAGE_DIMENSION]
      have hratio : (w : ℚ) / (h : ℚ) = 1 := by
        rw [heq]
        exact div_self (ne_of_gt hwq)
      have hval : jsRound ((1920 : ℚ) * ((w : ℚ) / (h : ℚ))) = 1920 := by
        rw [hratio, mul_one]
        unfold jsRound
        rw [Int.floor_eq_iff]
        norm_num
      rw [hp, hval]
      constructor
      · show max (1920 : ℤ) (1920 : ℤ) = 1920
        exact max_self 1920
      · show |min (((1920 : ℤ) : ℚ)) (((1920 : ℤ) : ℚ)) -
          1920 * (min (w : ℚ) (h : ℚ)) / (max (w : ℚ) (h : ℚ))| ≤ 1
        rw [heq, min_self, min_self, max_self, mul_div_assoc,
          div_self (ne_of_gt hwq), mul_one]
        norm_num
    · -- h > w: else-branch, output (round(1920 * (w / h)), 1920)
      have hbr : ¬(w > h) := by omega
      have hp : computeScaledDims w h MAX_IMAGE_DIMENSION =
          (jsRound ((1920 : ℚ) * ((w : ℚ) / (h : ℚ))), (1920 : ℤ)) := by
        unfold computeScaledDims
        rw [if_pos hcond, if_neg hbr]
        norm_num [MAX_IMAGE_DIMENSION]
      have hx : (1920 : ℚ) * ((w : ℚ) / (h : ℚ)) = 1920 * (w : ℚ) / (h : ℚ) := by
        ring
      have hxlt : (1920 : ℚ) * (w : ℚ) / (h : ℚ) < 1920 := by
        rw [div_lt_iff₀ hhq]
        have hc : (w : ℚ) < (h : ℚ) := by exact_mod_cast hlt2
        nlinarith
      have hrle : jsRound ((1920 : ℚ) * (w : ℚ) / (h : ℚ)) ≤ 1920 :=
        jsRound_le_of_lt _ 1920 (by exact_mod_cast hxlt)
      rw [hp]
      constructor
      · show max (jsRound ((1920 : ℚ) * ((w : ℚ) / (h : ℚ)))) (1920 : ℤ) = 1920
        rw [hx]
        exact max_eq_right hrle
      · show |min ((jsRound ((1920 : ℚ) * ((w : ℚ) / (h : ℚ))) : ℤ) : ℚ)
            (((1920 : ℤ) : ℚ)) -
          1920 * (min (w : ℚ) (h : ℚ)) / (max (w : ℚ) (h : ℚ))| ≤ 1
        have hminq : min (w : ℚ) (h : ℚ) = (w : ℚ) :=
          min_eq_left (by exact_mod_cast Nat.le_of_lt hlt2)
        have hmaxq : max (w : ℚ) (h : ℚ) = (h : ℚ) :=
          max_eq_right (by exact_mod_cast Nat.le_of_lt hlt2)
        have hminp : min ((jsRound ((1920 : ℚ) * ((w : ℚ) / (h : ℚ))) : ℤ) : ℚ)
            (((1920 : ℤ) : ℚ)) =
            ((jsRound ((1920 : ℚ) * ((w : ℚ) / (h : ℚ))) : ℤ) : ℚ) := by
          apply min_eq_left
          rw [hx]
          exact_mod_cast hrle
        rw [hminp, hminq, hmaxq, hx]
        have hb := jsRound_bounds ((1920 : ℚ) * (w : ℚ) / (h : ℚ))
        rw [abs_le]
        constructor
        · linarith [hb.1]
        · linarith [hb.2]

/-- Witness for C8 at a 5000 × 3000 input (longer edge over 1920). -/
theorem downscale_dimensions_witness :
    (0 < 5000 ∧ 0 < 3000) ∧
    (max 5000 3000 ≤ MAX_IMAGE_DIMENSION →
      computeScaledDims 5000 3000 MAX_IMAGE_DIMENSION = ((5000 : ℤ), (3000 : ℤ))) ∧
    (MAX_IMAGE_DIMENSION < max 5000 3000 →
      max (computeScaledDims 5000 3000 MAX_IMAGE_DIMENSION).1
          (computeScaledDims 5000 3000 MAX_IMAGE_DIMENSION).2 = 1920 ∧
      |(min (computeScaledDims 5000 3000 MAX_IMAGE_DIMENSION).1
          (computeScaledDims 5000 3000 MAX_IMAGE_DIMENSION).2 : ℚ) -
        1920 * (min 5000 3000 : ℚ) / (max 5000 3000 : ℚ)| ≤ 1) := by
  have h := downscale_dimensions 5000 3000 (by norm_num) (by norm_num)
  exact ⟨⟨by norm_num, by norm_num⟩, h.1, h.2⟩

/-- Thunk call sequence for the run in which the cancellation token is
raised during the FIRST backoff wait: call 1 happens before the raise
and draws the overload error; every later call starts with the token
already raised, so (per the DOM listener semantics modelled in
`mockApiCall`) its newly registered `abort` listener never fires and the
call proceeds as if uncancelled (here: no overload draw, a success). -/
def cancelDuringBackoffRun (resp : ApiResponse) (n : Nat) :
    AttemptResult ApiResponse :=
  if n = 1 then mockApiCall false true resp else mockApiCall false false resp

/-- The same scenario under the alternative (counterfactual) reading in
which attaching a listener to an already-aborted signal did fire it
immediately: every call after the raise rejects with the abort
rejection. -/
def cancelDuringBackoffRunAlt (resp : ApiResponse) (n : Nat) :
    AttemptResult ApiResponse :=
  if n = 1 then mockApiCall false true resp else mockApiCall true false resp

/-- C1 evaluation: when the token is raised during the first backoff
wait of a default run (`maxAttempts = 3`), `retryWithBackoff` — which
takes no cancellation token and whose backoff wait consults no signal —
completes the wait and invokes the thunk a second time. Under the DOM
listener semantics the run then resolves as a plain success (not
Cancelled) with 2 thunk invocations; even under the counterfactual
immediate-fire semantics the thunk is still invoked a second time
(2 invocations) before the abort rejection surfaces. Either way the
claimed behavior — resolve Cancelled with no further thunk invocations —
does not hold. -/
theorem cancellation_during_backoff_not_honored :
    ∀ resp : ApiResponse,
      retryWithBackoff (cancelDuringBackoffRun resp) 3 500 100 (fun _ => 0) =
        ⟨2, [500], .success resp⟩ ∧
      retryWithBackoff (cancelDuringBackoffRunAlt resp) 3 500 100 (fun _ => 0) =
        ⟨2, [500], .thrown abortReject⟩ := by
  intro resp
  have hov : isRetryableError overloadReject = true := by decide
  have hovab : isAbortError overloadReject = false := by decide
  have hab : isAbortError abortReject = true := by decide
  constructor
  · simp [retryWithBackoff, retryGo, cancelDuringBackoffRun, mockApiCall,
      hov, hovab]
  · simp [retryWithBackoff, retryGo, cancelDuringBackoffRunAlt, mockApiCall,
      hov, hovab, hab]

end AIStudio
